import Mathlib

/-!
Verification of `mlsecops_security.py` (MLSecOps risk-scoring helpers).

Shallow embedding conventions:
* pandas DataFrames are lists of rows; a column is a projection out of a row;
* exact arithmetic (`ℚ`, and `ℝ` where the source takes a square root) stands
  in for Python floats;
* Python exceptions are modelled with `Except String`; a function that the
  source can never abort is embedded as a total function;
* the numpy `Generator` object is modelled as explicit streams of draws.
-/

/- ================================================================
   Data model: `RiskScore` dataclass (source lines 31-46).
   `details` is an open mapping in the source; each check has its own
   concrete details record here, so the container is polymorphic.
   ================================================================ -/

structure RiskScore (α : Type) where
  name : String
  level : String
  details : α
  recommendations : List String

/- ================================================================
   Risk Aggregator / Report Assembler: `assemble_security_report`
   (source lines 269-296).
   File I/O model: the report file exists only in the `Except.ok`
   result (`AssembleResult.path` is the file the source writes with
   `write_text`); an `Except.error` result carries no written report,
   mirroring that `severity_map[risk["level"]]` is evaluated inside
   `max(...)` before `report_path.write_text` runs.
   ================================================================ -/

/-- The dict `severity_map = {"low": 0, "medium": 1, "high": 2}`; `none` is a
Python `KeyError` on lookup. -/
def severity_map : String → Option Nat := fun level =>
  if level = "low" then some 0
  else if level = "medium" then some 1
  else if level = "high" then some 2
  else none

/-- The generator `(severity_map[risk["level"]] for risk in risk_entries)` as
consumed left-to-right by `max(...)`: the first unknown level raises
`KeyError` and aborts. -/
def lookupSeverities {α : Type} : List (RiskScore α) → Except String (List Nat)
  | [] => Except.ok []
  | r :: rs =>
    match severity_map r.level with
    | none => Except.error ("KeyError: " ++ r.level)
    | some n =>
      match lookupSeverities rs with
      | Except.error e => Except.error e
      | Except.ok l => Except.ok (n :: l)

/-- `reverse_map.get(aggregate_level, "low")` where
`reverse_map = {0: "low", 1: "medium", 2: "high"}`. -/
def reverse_map_get (n : Nat) : String :=
  if n = 0 then "low" else if n = 1 then "medium" else if n = 2 then "high" else "low"

structure SecurityReport (μ α : Type) where
  manifest : μ
  risks : List (RiskScore α)
  aggregate_risk_level : String
  owasp_mappings : List String
  mitre_atlas_focus : List String

structure AssembleResult (μ α : Type) where
  report : SecurityReport μ α
  path : String

/-- `assemble_security_report(manifest, risks, output_dir)`.  `mkdir` has no
observable effect in this model.  `to_dict` is the identity on the record.
`max(gen, default=0)` over naturals equals `List.foldl max 0`. -/
def assemble_security_report {μ α : Type} (manifest : μ) (risks : List (RiskScore α))
    (output_dir : String) : Except String (AssembleResult μ α) :=
  match lookupSeverities risks with
  | Except.error e => Except.error e
  | Except.ok ords =>
    let aggregate_level := ords.foldl max 0
    let aggregate_label := reverse_map_get aggregate_level
    Except.ok
      { report :=
          { manifest := manifest
            risks := risks
            aggregate_risk_level := aggregate_label
            owasp_mappings := risks.map RiskScore.name
            mitre_atlas_focus :=
              ["ML Attack Staging", "ML Model Access", "ML Attack Execution"] }
        path := output_dir ++ "/mlsecops_security_report.json" }

/- Spec-side definitions (refinement target, following the spec's words):
"`aggregate_risk_level` uses the ordinal mapping low=0, medium=1, high=2,
takes the maximum across all RiskScores, defaults to low when the collection
is empty". -/

/-- Modelled from the spec: the ordinal mapping low=0, medium=1, high=2
(defined only on the three literals; the fallback value is never used under
the claims' preconditions). -/
def ordinal_of_level : String → Nat
  | "medium" => 1
  | "high" => 2
  | _ => 0

/-- Modelled from the spec: inverse of the ordinal mapping. -/
def level_of_ordinal : Nat → String
  | 0 => "low"
  | 1 => "medium"
  | _ => "high"

/-- Modelled from the spec: maximum level under the ordinal mapping, `"low"`
when the collection is empty. -/
def spec_aggregate_level (levels : List String) : String :=
  level_of_ordinal ((levels.map ordinal_of_level).foldl max 0)

/-- A level string accepted by `severity_map`. -/
def goodLevel (l : String) : Prop := l = "low" ∨ l = "medium" ∨ l = "high"

lemma severity_map_of_good {l : String} (h : goodLevel l) :
    severity_map l = some (ordinal_of_level l) := by
  rcases h with h | h | h <;> subst h <;> rfl

lemma lookupSeverities_ok {α : Type} {risks : List (RiskScore α)}
    (h : ∀ r ∈ risks, goodLevel r.level) :
    lookupSeverities risks = Except.ok ((risks.map RiskScore.level).map ordinal_of_level) := by
  induction risks with
  | nil => rfl
  | cons r rs ih =>
    have hr := h r (List.mem_cons_self r rs)
    have hrs := ih (fun x hx => h x (List.mem_cons_of_mem r hx))
    simp only [lookupSeverities, severity_map_of_good hr, hrs, List.map_cons]

lemma foldl_max_le_two {l : List Nat} (h : ∀ x ∈ l, x ≤ 2) :
    ∀ a, a ≤ 2 → l.foldl max a ≤ 2 := by
  induction l with
  | nil => intro a ha; simpa using ha
  | cons x xs ih =>
    intro a ha
    have hx := h x (List.mem_cons_self x xs)
    exact ih (fun y hy => h y (List.mem_cons_of_mem x hy)) (max a x)
      (max_le ha hx)

lemma ordinal_le_two (l : String) : ordinal_of_level l ≤ 2 := by
  unfold ordinal_of_level
  split <;> omega

lemma reverse_map_eq_spec (levels : List String) :
    reverse_map_get ((levels.map ordinal_of_level).foldl max 0) =
      spec_aggregate_level levels := by
  have hle : (levels.map ordinal_of_level).foldl max 0 ≤ 2 := by
    refine foldl_max_le_two ?_ 0 (by omega)
    intro x hx
    rcases List.mem_map.mp hx with ⟨s, _, rfl⟩
    exact ordinal_le_two s
  unfold spec_aggregate_level
  set k := (levels.map ordinal_of_level).foldl max 0 with hk
  interval_cases k <;> rfl

lemma assemble_ok_of_good {μ α : Type} (m : μ) (risks : List (RiskScore α)) (d : String)
    (h : ∀ r ∈ risks, goodLevel r.level) :
    ∃ out, assemble_security_report m risks d = Except.ok out ∧
      out.report.aggregate_risk_level = spec_aggregate_level (risks.map RiskScore.level) := by
  unfold assemble_security_report
  rw [lookupSeverities_ok h]
  refine ⟨_, rfl, ?_⟩
  simpa using reverse_map_eq_spec (risks.map RiskScore.level)

/-- C1: for a collection of RiskScores whose levels are all in
{low, medium, high}, `assemble_security_report` succeeds and its
`aggregate_risk_level` is the maximum of the levels under the ordinal mapping
low=0 < medium=1 < high=2 ("low" for the empty collection); moreover the
aggregate depends only on the list of `level` fields — any other risk
collection (over any details type, any names, any recommendations) with the
same levels yields the same aggregate. -/
theorem assemble_aggregate_risk_level_correct {μ μ' α α' : Type}
    (m : μ) (risks : List (RiskScore α)) (d : String)
    (h : ∀ r ∈ risks, goodLevel r.level) :
    (∃ out, assemble_security_report m risks d = Except.ok out ∧
      out.report.aggregate_risk_level = spec_aggregate_level (risks.map RiskScore.level)) ∧
    (∀ (m' : μ') (risks' : List (RiskScore α')) (d' : String),
      risks'.map RiskScore.level = risks.map RiskScore.level →
      ∃ out', assemble_security_report m' risks' d' = Except.ok out' ∧
        out'.report.aggregate_risk_level = spec_aggregate_level (risks.map RiskScore.level)) := by
  refine ⟨assemble_ok_of_good m risks d h, ?_⟩
  intro m' risks' d' hlv
  have h' : ∀ r ∈ risks', goodLevel r.level := by
    intro r hr
    have : r.level ∈ risks'.map RiskScore.level := List.mem_map_of_mem RiskScore.level hr
    rw [hlv] at this
    rcases List.mem_map.mp this with ⟨r₀, hr₀, he⟩
    rw [← he]
    exact h r₀ hr₀
  rcases assemble_ok_of_good m' risks' d' h' with ⟨out', h1, h2⟩
  exact ⟨out', h1, by rw [h2, hlv]⟩

/-- Witness for C1 at a concrete input: risks with levels [low, medium, low]
aggregate to "medium". -/
theorem assemble_aggregate_risk_level_correct_witness :
    ∃ out, assemble_security_report ()
      ([⟨"a", "low", (), []⟩, ⟨"b", "medium", (), []⟩, ⟨"c", "low", (), []⟩] :
        List (RiskScore Unit)) "out" =
        Except.ok out ∧
      out.report.aggregate_risk_level =
        spec_aggregate_level (["low", "medium", "low"]) := by
  have h := (@assemble_aggregate_risk_level_correct Unit Unit Unit Unit
    () ([⟨"a", "low", (), []⟩, ⟨"b", "medium", (), []⟩, ⟨"c", "low", (), []⟩]) "out"
    (by intro r hr; fin_cases hr <;> simp [goodLevel])).1
  simpa using h

lemma lookupSeverities_error_of_bad {α : Type} {risks : List (RiskScore α)}
    (h : ∃ r ∈ risks, severity_map r.level = none) :
    ∃ e, lookupSeverities risks = Except.error e := by
  induction risks with
  | nil => rcases h with ⟨r, hr, _⟩; cases hr
  | cons r rs ih =>
    rcases h with ⟨r₀, hr₀, hbad⟩
    rcases List.mem_cons.mp hr₀ with rfl | htail
    · exact ⟨"KeyError: " ++ r₀.level, by simp [lookupSeverities, hbad]⟩
    · cases hmap : severity_map r.level with
      | none => exact ⟨"KeyError: " ++ r.level, by simp [lookupSeverities, hmap]⟩
      | some n =>
        rcases ih ⟨r₀, htail, hbad⟩ with ⟨e, he⟩
        exact ⟨e, by simp [lookupSeverities, hmap, he]⟩

lemma severity_map_eq_none_of_bad {l : String}
    (h : l ≠ "low" ∧ l ≠ "medium" ∧ l ≠ "high") : severity_map l = none := by
  simp [severity_map, h.1, h.2.1, h.2.2]

/-- C10 (implicit): if some supplied RiskScore has a level outside
{low, medium, high}, `assemble_security_report` raises `KeyError` — the
result is an error and no report is produced (the ok-payload carrying the
written report never exists); if every level is one of the three literals,
the error branch is unreachable and a report is produced. -/
theorem assemble_keyerror_on_unknown_level {μ α : Type}
    (m : μ) (risks : List (RiskScore α)) (d : String) :
    ((∃ r ∈ risks, r.level ≠ "low" ∧ r.level ≠ "medium" ∧ r.level ≠ "high") →
      ∃ e, assemble_security_report m risks d = Except.error e) ∧
    ((∀ r ∈ risks, goodLevel r.level) →
      ∃ out, assemble_security_report m risks d = Except.ok out) := by
  constructor
  · intro h
    rcases h with ⟨r, hr, hbad⟩
    rcases lookupSeverities_error_of_bad
      ⟨r, hr, severity_map_eq_none_of_bad hbad⟩ with ⟨e, he⟩
    exact ⟨e, by simp [assemble_security_report, he]⟩
  · intro h
    rcases assemble_ok_of_good m risks d h with ⟨out, hout, _⟩
    exact ⟨out, hout⟩

/-- Witness for C10 at a concrete input: a RiskScore with level "critical"
makes the assembler error out. -/
theorem assemble_keyerror_on_unknown_level_witness :
    ∃ e, assemble_security_report ()
      ([⟨"a", "critical", (), []⟩] : List (RiskScore Unit)) "out" = Except.error e := by
  refine (@assemble_keyerror_on_unknown_level Unit Unit ()
    [⟨"a", "critical", (), []⟩] "out").1 ?_
  exact ⟨⟨"a", "critical", (), []⟩, by simp, by simp⟩

/- ================================================================
   Poisoning Scanner: `scan_for_data_poisoning` (source lines 99-148).
   A dataframe is a `List Row` for an arbitrary row type with decidable
   equality (`df.duplicated()` compares whole rows); a column is a
   projection `Row → ℚ` (numeric) or `Row → String` (label).
   ================================================================ -/

/-- `df.duplicated().sum()` with pandas' default `keep="first"`: rows equal
to an earlier row. -/
def duplicatedCountAux {Row : Type} [DecidableEq Row] (seen : List Row) : List Row → Nat
  | [] => 0
  | r :: rs => (if r ∈ seen then 1 else 0) + duplicatedCountAux (r :: seen) rs

def duplicatedCount {Row : Type} [DecidableEq Row] (df : List Row) : Nat :=
  duplicatedCountAux [] df

/-- `series.value_counts(normalize=True).to_dict()`: each distinct label with
its relative frequency.  (pandas orders the dict by descending count; the
order is irrelevant to the program, which only takes `max` of the values and
stores the mapping.) -/
def value_counts (ls : List String) : List (String × ℚ) :=
  ls.dedup.map (fun v => (v, (ls.count v : ℚ) / (ls.length : ℚ)))

/-- Python's built-in `max` over a sequence: `none` models the `ValueError`
it raises on an empty sequence. -/
def pyMax : List ℚ → Option ℚ
  | [] => none
  | x :: xs => some (xs.foldl max x)

/-- Ascending insertion (helper for the sort underlying quantiles). -/
def insertAsc (x : ℚ) : List ℚ → List ℚ
  | [] => [x]
  | y :: ys => if x ≤ y then x :: y :: ys else y :: insertAsc x ys

/-- Sort ascending (the order statistics used by `Series.quantile`). -/
def sortAsc (l : List ℚ) : List ℚ := l.foldr insertAsc []

/-- Floor of a non-negative rational as a natural number. -/
def qfloorNat (q : ℚ) : Nat := q.num.toNat / q.den

/-- `series.quantile(q)` with pandas' default linear interpolation: with the
values sorted ascending as `s` of length `n`, position `h = q·(n−1)`,
`lo = ⌊h⌋`, the quantile is `s[lo] + (h − lo)·(s[lo+1] − s[lo])` (the second
index falls back to `s[lo]` at the top end, where `h − lo = 0`). -/
def quantile (xs : List ℚ) (q : ℚ) : ℚ :=
  let s := sortAsc xs
  let n := s.length
  let h := q * ((n : ℚ) - 1)
  let lo := qfloorNat h
  let a := s.getD lo 0
  let b := s.getD (lo + 1) a
  a + (h - (lo : ℚ)) * (b - a)

/-- `q1, q3 = series.quantile([0.25, 0.75])` for the column `c` of `df`. -/
def col_q1 {Row : Type} (df : List Row) (c : Row → ℚ) : ℚ :=
  quantile (df.map c) (1/4)

def col_q3 {Row : Type} (df : List Row) (c : Row → ℚ) : ℚ :=
  quantile (df.map c) (3/4)

def col_iqr {Row : Type} (df : List Row) (c : Row → ℚ) : ℚ :=
  col_q3 df c - col_q1 df c

def col_lower {Row : Type} (df : List Row) (c : Row → ℚ) : ℚ :=
  col_q1 df c - 3 * col_iqr df c

def col_upper {Row : Type} (df : List Row) (c : Row → ℚ) : ℚ :=
  col_q3 df c + 3 * col_iqr df c

/-- `mask = (series < lower) | (series > upper); mask.sum()` for one column. -/
def col_outlier_count {Row : Type} (df : List Row) (c : Row → ℚ) : Nat :=
  df.countP (fun r => decide (c r < col_lower df c ∨ col_upper df c < c r))

/-- The `outlier_rows` accumulator: outlier cells summed across all numeric
columns (a row is counted once per offending column). -/
def outlier_total {Row : Type} (df : List Row) (cols : List (Row → ℚ)) : Nat :=
  (cols.map (fun c => col_outlier_count df c)).sum

structure PoisonDetails where
  issues : List String
  class_balance : List (String × ℚ)

/-- `scan_for_data_poisoning(df, label_column, numeric_columns)`.  Issue
message strings use `toString` in place of Python's format specifiers; only
their presence matters.  The error branch is Python's `ValueError` from
`max(class_balance.values())` on an empty dataframe. -/
def scan_for_data_poisoning {Row : Type} [DecidableEq Row]
    (df : List Row) (label : Row → String) (numeric_columns : List (Row → ℚ)) :
    Except String (RiskScore PoisonDetails) :=
  let duplicate_rows := duplicatedCount df
  let issues1 : List String :=
    if duplicate_rows ≠ 0 then [toString duplicate_rows ++ " duplicated rows detected."]
    else []
  let class_balance := value_counts (df.map label)
  match pyMax (class_balance.map Prod.snd) with
  | none => Except.error "ValueError: max() arg is an empty sequence"
  | some majority =>
    let issues2 := issues1 ++
      (if majority > (3/4 : ℚ) then
        ["Label imbalance detected (majority class frequency=" ++ toString majority ++ ")."]
      else [])
    let outlier_rows := outlier_total df numeric_columns
    let issues := issues2 ++
      (if outlier_rows ≠ 0 then [toString outlier_rows ++ " numeric rows outside 3*IQR boundaries."]
      else [])
    let level :=
      if issues.length = 0 then "low"
      else if issues.length = 1 then "medium"
      else "high"
    Except.ok
      { name := "OWASP-ML02-DataPoisoning"
        level := level
        details := { issues := issues, class_balance := class_balance }
        recommendations :=
          [ "Review upstream data sources and retrace provenance chain.",
            "Validate contributor identities for user-generated data.",
            "Regenerate dataset from trusted sources if tampering is confirmed." ] }

/-- Modelled from the spec: "zero issues → low; exactly one issue → medium;
two or more issues → high". -/
def severity_of_issue_count (n : Nat) : String :=
  if n = 0 then "low" else if n = 1 then "medium" else "high"

/-- The number of issues the three heuristics raise on `df`. -/
def issue_count {Row : Type} [DecidableEq Row]
    (df : List Row) (label : Row → String) (cols : List (Row → ℚ)) : Nat :=
  (if duplicatedCount df ≠ 0 then 1 else 0) +
  ((if (pyMax ((value_counts (df.map label)).map Prod.snd)).getD 0 > (3/4 : ℚ) then 1 else 0) +
  (if outlier_total df cols ≠ 0 then 1 else 0))

lemma insertAsc_mem (x : ℚ) (l : List ℚ) (a : ℚ) :
    a ∈ insertAsc x l ↔ a = x ∨ a ∈ l := by
  induction l with
  | nil => simp [insertAsc]
  | cons y ys ih =>
    unfold insertAsc
    by_cases hxy : x ≤ y
    · simp [hxy]
    · simp only [hxy, if_false, List.mem_cons, ih]
      tauto

lemma sortAsc_mem (l : List ℚ) (a : ℚ) : a ∈ sortAsc l ↔ a ∈ l := by
  induction l with
  | nil => simp [sortAsc]
  | cons x xs ih =>
    show a ∈ insertAsc x (sortAsc xs) ↔ _
    rw [insertAsc_mem]
    simp [ih]

lemma insertAsc_length (x : ℚ) (l : List ℚ) :
    (insertAsc x l).length = l.length + 1 := by
  induction l with
  | nil => rfl
  | cons y ys ih =>
    unfold insertAsc
    by_cases hxy : x ≤ y <;> simp [hxy, ih]

lemma sortAsc_length (l : List ℚ) : (sortAsc l).length = l.length := by
  induction l with
  | nil => rfl
  | cons x xs ih =>
    show (insertAsc x (sortAsc xs)).length = _
    rw [insertAsc_length, ih, List.length_cons]

lemma qfloorNat_cast_le {x : ℚ} (hx : 0 ≤ x) : (qfloorNat x : ℚ) ≤ x := by
  have hden : (0:ℚ) < (x.den : ℚ) := by exact_mod_cast x.pos
  have hnum : (x.num.toNat : ℤ) = x.num := Int.toNat_of_nonneg (Rat.num_nonneg.mpr hx)
  have h1 : (qfloorNat x) * x.den ≤ x.num.toNat := Nat.div_mul_le_self _ _
  have h2 : ((qfloorNat x : ℚ)) * (x.den : ℚ) ≤ ((x.num.toNat : ℕ) : ℚ) := by
    exact_mod_cast h1
  have h3 : ((x.num.toNat : ℕ) : ℚ) = ((x.num : ℤ) : ℚ) := by exact_mod_cast hnum
  rw [h3] at h2
  have h4 : (qfloorNat x : ℚ) ≤ ((x.num : ℤ) : ℚ) / (x.den : ℚ) := (le_div_iff₀ hden).mpr h2
  rwa [Rat.num_div_den] at h4

lemma quantile_const {xs : List ℚ} {v : ℚ} (q : ℚ) (h0 : xs ≠ [])
    (hv : ∀ x ∈ xs, x = v) (hq0 : 0 ≤ q) (hq1 : q ≤ 1) : quantile xs q = v := by
  have hmem : ∀ x ∈ sortAsc xs, x = v := fun x hx => hv x ((sortAsc_mem xs x).mp hx)
  have hpos : 0 < (sortAsc xs).length := by
    rw [sortAsc_length]
    exact List.length_pos.mpr h0
  unfold quantile
  set s := sortAsc xs with hs
  set n := s.length with hn
  set h := q * ((n : ℚ) - 1) with hdefh
  set lo := qfloorNat h with hdeflo
  have hcast : (1:ℚ) ≤ (n:ℚ) := by exact_mod_cast hpos
  have hh0 : 0 ≤ h := mul_nonneg hq0 (by linarith)
  have hhle : h ≤ (n:ℚ) - 1 := by nlinarith
  have hlo_lt : lo < n := by
    by_contra hcon
    push_neg at hcon
    have h1 : ((n : ℕ) : ℚ) ≤ ((lo : ℕ) : ℚ) := by exact_mod_cast hcon
    have h2 := qfloorNat_cast_le hh0
    rw [← hdeflo] at h2
    linarith
  have ha : s.getD lo 0 = v := by
    rw [List.getD_eq_getElem?_getD, List.getElem?_eq_getElem hlo_lt]
    exact hmem _ (List.getElem_mem hlo_lt)
  have hb : s.getD (lo + 1) (s.getD lo 0) = s.getD lo 0 := by
    rcases lt_or_le (lo + 1) n with hlt | hge
    · rw [List.getD_eq_getElem?_getD, List.getElem?_eq_getElem hlt]
      rw [ha]
      exact hmem _ (List.getElem_mem hlt)
    · rw [List.getD_eq_getElem?_getD, List.getElem?_eq_none hge]
      rfl
  show s.getD lo 0 + (h - (lo : ℚ)) * (s.getD (lo + 1) (s.getD lo 0) - s.getD lo 0) = v
  rw [hb, sub_self, mul_zero, add_zero, ha]

lemma strict_outside_iff (lower upper x : ℚ) :
    (x < lower ∨ upper < x) ↔ ¬ (lower ≤ x ∧ x ≤ upper) := by
  rw [not_and_or, not_le, not_le]

lemma sum_map_add_nat {ρ : Type} (rs : List ρ) (f g : ρ → Nat) :
    (rs.map (fun r => f r + g r)).sum = (rs.map f).sum + (rs.map g).sum := by
  induction rs with
  | nil => rfl
  | cons r rs ih =>
    simp only [List.map_cons, List.sum_cons, ih]
    omega

lemma sum_map_zero_nat {ρ : Type} (rs : List ρ) :
    (rs.map (fun _ => (0 : Nat))).sum = 0 := by
  induction rs with
  | nil => rfl
  | cons r rs ih => simp [ih]

lemma sum_map_ite_eq_countP {ρ : Type} (rs : List ρ) (p : ρ → Bool) :
    (rs.map (fun r => if p r then 1 else 0)).sum = rs.countP p := by
  induction rs with
  | nil => rfl
  | cons r rs ih =>
    rw [List.map_cons, List.sum_cons, List.countP_cons, ih]
    cases hp : p r <;> simp [Nat.add_comm]

lemma countP_sum_swap {γ ρ : Type} (cs : List γ) (rs : List ρ) (p : γ → ρ → Bool) :
    (cs.map (fun c => rs.countP (p c))).sum =
      (rs.map (fun r => cs.countP (fun c => p c r))).sum := by
  induction cs with
  | nil =>
    simp only [List.map_nil, List.sum_nil, List.countP_nil]
    exact (sum_map_zero_nat rs).symm
  | cons c cs ih =>
    simp only [List.map_cons, List.sum_cons, ih]
    have hpt : ∀ r ∈ rs, (c :: cs).countP (fun c' => p c' r) =
        (if p c r then 1 else 0) + cs.countP (fun c' => p c' r) := by
      intro r _
      rw [List.countP_cons]
      cases hp : p c r <;> simp [Nat.add_comm]
    rw [List.map_congr_left hpt, sum_map_add_nat, sum_map_ite_eq_countP]

/-- C8: outliers are counted per offending column — `outlier_total` is the
sum over numeric columns of the rows whose value lies strictly outside
`[Q1 − 3·IQR, Q3 + 3·IQR]` for that column (equivalently, the sum over rows
of the number of columns on which the row is an outlier, so a row offending
in two columns is counted twice); and for a constant non-empty column the
bounds collapse to the single observed value, so exactly the differing
values count as outliers. -/
theorem scan_outlier_policy {Row : Type} (df : List Row) (cols : List (Row → ℚ)) :
    outlier_total df cols =
      (cols.map (fun c =>
        (df.filter (fun r =>
          decide (¬ (col_lower df c ≤ c r ∧ c r ≤ col_upper df c)))).length)).sum ∧
    outlier_total df cols =
      (df.map (fun r =>
        cols.countP (fun c => decide (c r < col_lower df c ∨ col_upper df c < c r)))).sum ∧
    (∀ (c : Row → ℚ) (v : ℚ), df ≠ [] → (∀ r ∈ df, c r = v) →
      col_lower df c = v ∧ col_upper df c = v ∧
        ∀ w : ℚ, (w < col_lower df c ∨ col_upper df c < w) ↔ w ≠ v) := by
  refine ⟨?_, ?_, ?_⟩
  · unfold outlier_total col_outlier_count
    refine congrArg List.sum (List.map_congr_left ?_)
    intro c _
    rw [List.countP_eq_length_filter]
    refine congrArg List.length (List.filter_congr ?_)
    intro r _
    exact decide_eq_decide.mpr (strict_outside_iff _ _ _)
  · unfold outlier_total col_outlier_count
    exact countP_sum_swap cols df
      (fun c r => decide (c r < col_lower df c ∨ col_upper df c < c r))
  · intro c v hne hconst
    have hmapne : df.map c ≠ [] := by simpa using hne
    have hmapconst : ∀ x ∈ df.map c, x = v := by
      intro x hx
      rcases List.mem_map.mp hx with ⟨r, hr, rfl⟩
      exact hconst r hr
    have hq1 : col_q1 df c = v :=
      quantile_const (1/4) hmapne hmapconst (by norm_num) (by norm_num)
    have hq3 : col_q3 df c = v :=
      quantile_const (3/4) hmapne hmapconst (by norm_num) (by norm_num)
    have hlow : col_lower df c = v := by
      unfold col_lower col_iqr
      rw [hq1, hq3]
      ring
    have hup : col_upper df c = v := by
      unfold col_upper col_iqr
      rw [hq1, hq3]
      ring
    refine ⟨hlow, hup, ?_⟩
    intro w
    rw [hlow, hup]
    exact lt_or_lt_iff_ne

/-- Witness for C8 at a concrete input: on the constant column `[5, 5]` the
outlier bounds collapse to 5 and exactly the values different from 5 are
outliers. -/
theorem scan_outlier_policy_witness :
    ([(5:ℚ), 5] : List ℚ) ≠ [] ∧ (∀ r ∈ ([(5:ℚ), 5] : List ℚ), id r = 5) ∧
    (col_lower [(5:ℚ), 5] id = 5 ∧ col_upper [(5:ℚ), 5] id = 5 ∧
      ∀ w : ℚ, (w < col_lower [(5:ℚ), 5] id ∨ col_upper [(5:ℚ), 5] id < w) ↔ w ≠ 5) := by
  have h1 : ([(5:ℚ), 5] : List ℚ) ≠ [] := by simp
  have h2 : ∀ r ∈ ([(5:ℚ), 5] : List ℚ), id r = 5 := by
    intro r hr
    simp only [List.mem_cons, List.mem_singleton] at hr
    rcases hr with h | h | h <;> simp_all
  exact ⟨h1, h2, (scan_outlier_policy [(5:ℚ), 5] [id]).2.2 id 5 h1 h2⟩

/-- C2 (amended): on every non-empty dataset split the scanner returns a
RiskScore whose level is exactly determined by the number of issues raised by
the three heuristics — zero issues → low, one → medium, two or more → high.
(On the empty split the source raises `ValueError` instead; see the
counterexample theorem.) -/
theorem scan_severity_policy {Row : Type} [DecidableEq Row]
    (df : List Row) (label : Row → String) (cols : List (Row → ℚ)) (h : df ≠ []) :
    ∃ rs, scan_for_data_poisoning df label cols = Except.ok rs ∧
      rs.details.issues.length = issue_count df label cols ∧
      rs.level = severity_of_issue_count (issue_count df label cols) := by
  have hvcne : (value_counts (df.map label)).map Prod.snd ≠ [] := by
    simp only [value_counts, List.map_map, ne_eq, List.map_eq_nil_iff, List.dedup_eq_nil]
    exact h
  obtain ⟨f, fs, hfs⟩ := List.exists_cons_of_ne_nil hvcne
  unfold scan_for_data_poisoning issue_count
  simp only [hfs, pyMax, Option.getD_some]
  by_cases hc1 : duplicatedCount df = 0 <;>
    by_cases hc2 : fs.foldl max f > (3/4 : ℚ) <;>
      by_cases hc3 : outlier_total df cols = 0 <;>
        simp [hc1, hc2, hc3, severity_of_issue_count]

/-- C2 counterexample: on the empty split `scan_for_data_poisoning` does not
return a RiskScore at all — `max(class_balance.values())` raises `ValueError`
(the class-balance dict of an empty split is empty). -/
theorem scan_empty_split_raises :
    scan_for_data_poisoning ([] : List ℚ) (fun _ => "a") ([] : List (ℚ → ℚ)) =
      Except.error "ValueError: max() arg is an empty sequence" := rfl

/-- Witness for C2 at a concrete input: the one-row split is non-empty and
the scanner succeeds with the issue-count severity. -/
theorem scan_severity_policy_witness :
    ([(1:ℚ)] : List ℚ) ≠ [] ∧
    ∃ rs, scan_for_data_poisoning ([(1:ℚ)] : List ℚ) (fun _ => "a") ([] : List (ℚ → ℚ)) =
        Except.ok rs ∧
      rs.details.issues.length = issue_count ([(1:ℚ)] : List ℚ) (fun _ => "a") [] ∧
      rs.level = severity_of_issue_count (issue_count ([(1:ℚ)] : List ℚ) (fun _ => "a") []) := by
  have h : ([(1:ℚ)] : List ℚ) ≠ [] := by simp
  exact ⟨h, scan_severity_policy ([(1:ℚ)] : List ℚ) (fun _ => "a") [] h⟩

/- ================================================================
   Membership-Inference Assessor: `evaluate_membership_inference_risk`
   (source lines 151-190).
   The model is the duck-typed `predict_proba` capability: a per-row
   probability vector.  `featuresOf` models `df.drop(columns=[label_column])`
   applied row-wise.  The empty-mean convention: numpy returns NaN (with a
   warning) for the mean of zero rows; in this exact-arithmetic model the
   division `0 / 0` yields 0.  The source contains no emptiness check and
   defines no `EmptyDatasetError`, so the embedding is a total function.
   ================================================================ -/

structure ProbaModel (Feat : Type) where
  predict_proba : Feat → List ℚ

/-- `model.predict_proba(features).max(axis=1)` for one row: the top class
probability.  (numpy errors on a zero-width vector; classifiers always have
at least one class, so the `[]` fallback value is never exercised.) -/
def rowTopConfidence {Feat : Type} (model : ProbaModel Feat) (f : Feat) : ℚ :=
  match model.predict_proba f with
  | [] => 0
  | p :: ps => ps.foldl max p

/-- `arr.mean()` (numpy): sum over length; `0 / 0 = 0` stands in for numpy's
NaN on an empty array. -/
def listMean (l : List ℚ) : ℚ := l.sum / (l.length : ℚ)

/-- `arr.var()` (numpy, ddof=0): mean squared deviation from the mean. -/
def listVar (l : List ℚ) : ℚ := listMean (l.map (fun x => (x - listMean l) ^ 2))

/-- The per-row top-confidence series of a split. -/
def topConfidences {Row Feat : Type} (model : ProbaModel Feat) (featuresOf : Row → Feat)
    (df : List Row) : List ℚ :=
  df.map (fun r => rowTopConfidence model (featuresOf r))

structure PrivacyDetails where
  train_confidence_mean : ℚ
  test_confidence_mean : ℚ
  confidence_gap : ℚ
  variance_gap : ℚ

/-- `evaluate_membership_inference_risk(model, train_df, test_df, label_column)`. -/
def evaluate_membership_inference_risk {Row Feat : Type} (model : ProbaModel Feat)
    (featuresOf : Row → Feat) (train_df test_df : List Row) : RiskScore PrivacyDetails :=
  let train_conf := topConfidences model featuresOf train_df
  let test_conf := topConfidences model featuresOf test_df
  let confidence_gap := listMean train_conf - listMean test_conf
  let variance_gap := listVar train_conf - listVar test_conf
  let level :=
    if confidence_gap > 0.15 then "high"
    else if confidence_gap > 0.08 then "medium"
    else "low"
  { name := "OWASP-ML03-ML04-Privacy"
    level := level
    details :=
      { train_confidence_mean := listMean train_conf
        test_confidence_mean := listMean test_conf
        confidence_gap := confidence_gap
        variance_gap := variance_gap }
    recommendations :=
      [ "Reduce overfitting (regularisation, more data, early stopping).",
        "Consider confidence clipping or logit rounding on inference APIs.",
        "Add differential privacy noise before exposing model outputs." ] }

/-- C5: the reported `confidence_gap` is exactly
mean(train top-class confidence) − mean(test top-class confidence), and
feeding the identical split as both train and test gives a gap of 0 and
level "low" (0 is not greater than 0.08). -/
theorem membership_confidence_gap_exact {Row Feat : Type} (model : ProbaModel Feat)
    (featuresOf : Row → Feat) (train_df test_df : List Row) :
    (evaluate_membership_inference_risk model featuresOf train_df test_df).details.confidence_gap =
      listMean (topConfidences model featuresOf train_df) -
        listMean (topConfidences model featuresOf test_df) ∧
    (train_df = test_df →
      (evaluate_membership_inference_risk model featuresOf train_df test_df).details.confidence_gap
          = 0 ∧
        (evaluate_membership_inference_risk model featuresOf train_df test_df).level = "low") := by
  constructor
  · rfl
  · intro he
    subst he
    unfold evaluate_membership_inference_risk
    refine ⟨sub_self _, ?_⟩
    have h1 : ¬ ((0:ℚ) > 0.15) := by norm_num
    have h2 : ¬ ((0:ℚ) > 0.08) := by norm_num
    simp only [sub_self, h1, h2, if_false]

/-- Witness for C5 at a concrete input: same one-row split on both sides. -/
theorem membership_confidence_gap_exact_witness :
    (evaluate_membership_inference_risk ⟨fun _ => [1]⟩ (fun r : Unit => r)
        [()] [()]).details.confidence_gap = 0 ∧
    (evaluate_membership_inference_risk ⟨fun _ => [1]⟩ (fun r : Unit => r)
        [()] [()]).level = "low" :=
  (membership_confidence_gap_exact ⟨fun _ => [1]⟩ (fun r : Unit => r) [()] [()]).2 rfl

/-- C3 counterexample: called on empty train and test splits, the assessor
does not fail — the source has no emptiness check and the codebase defines
no `EmptyDatasetError` — it returns an ordinary `MembershipInferencePrivacy`
RiskScore. -/
theorem membership_empty_split_returns :
    (evaluate_membership_inference_risk ⟨fun _ => [1]⟩ (fun r : Unit => r)
        ([] : List Unit) ([] : List Unit)).name = "OWASP-ML03-ML04-Privacy" ∧
    (evaluate_membership_inference_risk ⟨fun _ => [1]⟩ (fun r : Unit => r)
        ([] : List Unit) ([] : List Unit)).level = "low" := by
  constructor
  · rfl
  · unfold evaluate_membership_inference_risk
    have h1 : ¬ ((listMean (topConfidences (⟨fun _ => [1]⟩ : ProbaModel Unit) (fun r => r) []) -
        listMean (topConfidences (⟨fun _ => [1]⟩ : ProbaModel Unit) (fun r => r) [])) > 0.15) := by
      norm_num
    have h2 : ¬ ((listMean (topConfidences (⟨fun _ => [1]⟩ : ProbaModel Unit) (fun r => r) []) -
        listMean (topConfidences (⟨fun _ => [1]⟩ : ProbaModel Unit) (fun r => r) [])) > 0.08) := by
      norm_num
    simp only [h1, h2, if_false]

/-- C3 (amended): the assessor never raises — on empty train and test splits
it still returns a RiskScore; under the exact-arithmetic empty-mean
convention both confidence means are 0, so the gap is 0 and the level is
"low".  (In numpy the empty means are NaN; either way no `EmptyDatasetError`
exists or is raised.) -/
theorem membership_no_empty_check {Row Feat : Type} (model : ProbaModel Feat)
    (featuresOf : Row → Feat) (train_df test_df : List Row)
    (h1 : train_df = []) (h2 : test_df = []) :
    (evaluate_membership_inference_risk model featuresOf train_df test_df).name =
        "OWASP-ML03-ML04-Privacy" ∧
    (evaluate_membership_inference_risk model featuresOf train_df test_df).level = "low" ∧
    (evaluate_membership_inference_risk model featuresOf train_df test_df).details.confidence_gap
        = 0 ∧
    (evaluate_membership_inference_risk model featuresOf train_df test_df
        ).details.train_confidence_mean = 0 ∧
    (evaluate_membership_inference_risk model featuresOf train_df test_df
        ).details.test_confidence_mean = 0 := by
  subst h1 h2
  unfold evaluate_membership_inference_risk
  have hmean : listMean (topConfidences model featuresOf ([] : List Row)) = 0 := by
    simp [topConfidences, listMean]
  have hg1 : ¬ ((listMean (topConfidences model featuresOf ([] : List Row)) -
      listMean (topConfidences model featuresOf ([] : List Row))) > 0.15) := by
    rw [hmean]; norm_num
  have hg2 : ¬ ((listMean (topConfidences model featuresOf ([] : List Row)) -
      listMean (topConfidences model featuresOf ([] : List Row))) > 0.08) := by
    rw [hmean]; norm_num
  refine ⟨rfl, ?_, ?_, ?_, ?_⟩
  · simp only [hg1, hg2, if_false]
  · simp only [hmean, sub_self]
  · exact hmean
  · exact hmean

/-- Witness for the amended C3 at a concrete input. -/
theorem membership_no_empty_check_witness :
    (evaluate_membership_inference_risk (⟨fun _ => [mkRat 1 2, mkRat 1 2]⟩ : ProbaModel Unit)
        (fun r : Unit => r) ([] : List Unit) ([] : List Unit)).level = "low" ∧
    (evaluate_membership_inference_risk (⟨fun _ => [mkRat 1 2, mkRat 1 2]⟩ : ProbaModel Unit)
        (fun r : Unit => r) ([] : List Unit) ([] : List Unit)).details.confidence_gap = 0 :=
  ⟨(membership_no_empty_check ⟨fun _ => [mkRat 1 2, mkRat 1 2]⟩ (fun r => r) [] [] rfl rfl).2.1,
   (membership_no_empty_check ⟨fun _ => [mkRat 1 2, mkRat 1 2]⟩ (fun r => r) [] [] rfl rfl).2.2.1⟩

/- ================================================================
   Adversarial Stress Tester: `run_adversarial_stress_test`
   (source lines 193-266).
   Numeric cells live in ℝ (the noise scale takes a square root).
   The numpy `Generator` is modelled as explicit draw streams: `normal i j`
   is the standard-normal draw for matrix cell (i, j) of
   `rng.normal(size=(n, k))` (scaled by the per-column scale, matching the
   distributional semantics of `scale=`), and `uniform i` the draw of
   `rng.random(n)` for row `i`.  Identical streams = identical generator
   state.  Python variable semantics: `perturbed = test_df.copy(deep=True)`
   makes all later in-place writes (`perturbed[col] = ...`, `.loc[...]`)
   target only the copy, so the call returns the caller's dataframe
   unchanged, which the embedding makes explicit by also returning the final
   value of `test_df`.
   ================================================================ -/

structure Rng where
  normal : Nat → Nat → ℝ
  uniform : Nat → ℝ

/-- `np.random.default_rng(seed)`: an external library object; its stream
contents are opaque (PCG64), so they are modelled as fixed streams — only
the fact that the function builds one internally for `rng=None` matters to
the claims. -/
noncomputable def default_rng (seed : Nat) : Rng :=
  { normal := fun _ _ => 0, uniform := fun _ => (seed : ℝ) / (seed + 1 : ℝ) }

/-- One row of the test split: the declared numeric columns in order, the
free-text column, the label column, and the remaining (untouched) columns. -/
structure AdvRow where
  nums : List ℝ
  text : String
  label : String
  extra : List String

structure AdvFeatures where
  nums : List ℝ
  text : String
  extra : List String

/-- `df.drop(columns=[label_column])` row-wise. -/
def advFeaturesOf (r : AdvRow) : AdvFeatures := ⟨r.nums, r.text, r.extra⟩

/-- The duck-typed `predict` capability. -/
structure LabelModel where
  predict : AdvFeatures → String

/-- Column `j` of `test_df[numeric_columns]` (every row has a value for every
declared column, so the default is never exercised on well-formed data). -/
noncomputable def colValues (df : List AdvRow) (j : Nat) : List ℝ := df.map (fun r => r.nums.getD j 0)

noncomputable def realMean (l : List ℝ) : ℝ := l.sum / (l.length : ℝ)

/-- `.std(ddof=0)` squared: population variance. -/
noncomputable def realPopVariance (l : List ℝ) : ℝ :=
  (l.map (fun x => (x - realMean l) ^ 2)).sum / (l.length : ℝ)

noncomputable def realPopStd (l : List ℝ) : ℝ := Real.sqrt (realPopVariance l)

/-- `.replace(0, 1)` applied to the per-column std series. -/
noncomputable def replaceZeroStd (s : ℝ) : ℝ := if s = 0 then 1 else s

/-- `np.clip(numeric_stats * epsilon, 1e-3, None)` for one column, where
`numeric_stats = test_df[numeric_columns].std(ddof=0).replace(0, 1)`. -/
noncomputable def advNoiseScale (stdv eps : ℝ) : ℝ :=
  max (replaceZeroStd stdv * eps) (1/1000)

/-- The Gaussian noise scale the stress tester uses for column `j`. -/
noncomputable def colScale (df : List AdvRow) (eps : ℝ) (j : Nat) : ℝ :=
  advNoiseScale (realPopStd (colValues df j)) eps

/-- `perturbed[column] = perturbed[column] + noise[:, idx]` for every numeric
column: zero-mean Gaussian noise of per-column scale, drawn from `rng`. -/
noncomputable def perturbNums (df : List AdvRow) (eps : ℝ) (rng : Rng) : List AdvRow :=
  df.mapIdx (fun i r =>
    { r with nums := r.nums.mapIdx (fun j x => x + colScale df eps j * rng.normal i j) })

/-- `trigger_mask = rng.random(len(perturbed)) < 0.3` at row `i`. -/
noncomputable def triggerFlag (rng : Rng) (i : Nat) : Bool := decide (rng.uniform i < 0.3)

/-- `perturbed.loc[trigger_mask, text_column] += f" {trigger_phrase}"`. -/
noncomputable def applyTrigger (df : List AdvRow) (phrase : String) (rng : Rng) : List AdvRow :=
  df.mapIdx (fun i r =>
    if triggerFlag rng i then { r with text := r.text ++ " " ++ phrase } else r)

/-- sklearn's `accuracy_score`: fraction of positions where prediction equals
label. -/
noncomputable def accuracy_score (y_true y_pred : List String) : ℝ :=
  (((y_true.zip y_pred).countP (fun p => decide (p.1 = p.2)) : ℕ) : ℝ) / (y_true.length : ℝ)

structure AdvDetails where
  baseline_accuracy : ℝ
  adversarial_accuracy : ℝ
  accuracy_degradation : ℝ
  triggered_subset_size : Nat
  targeted_success_rate : ℝ

/-- `run_adversarial_stress_test(model, test_df, label_column,
numeric_columns, text_column, baseline_accuracy, epsilon, trigger_phrase,
rng=None)`.  The second component of the result is the final value of the
caller's `test_df` object after the call (the state-passing rendering of the
source's in-place writes, all of which target the deep copy). -/
noncomputable def run_adversarial_stress_test (model : LabelModel) (test_df : List AdvRow)
    (baseline_accuracy : ℝ) (epsilon : ℝ) (trigger_phrase : String)
    (rng? : Option Rng) : RiskScore AdvDetails × List AdvRow :=
  let rng := rng?.getD (default_rng 42)
  let perturbed1 := perturbNums test_df epsilon rng
  let perturbed2 := applyTrigger perturbed1 trigger_phrase rng
  let labels := perturbed2.map AdvRow.label
  let adv_predictions := perturbed2.map (fun r => model.predict (advFeaturesOf r))
  let adv_accuracy := accuracy_score labels adv_predictions
  let degradation := max 0 (baseline_accuracy - adv_accuracy)
  let triggered_subset :=
    ((perturbed2.mapIdx (fun i r => (i, r))).filter (fun p => triggerFlag rng p.1)).map Prod.snd
  let targeted_success : ℝ :=
    if triggered_subset.isEmpty then 0
    else ((triggered_subset.countP
        (fun r => decide (model.predict (advFeaturesOf r) ≠ r.label)) : ℕ) : ℝ) /
      (triggered_subset.length : ℝ)
  let level :=
    if degradation ≥ 0.2 then "high"
    else if degradation ≥ 0.1 then "medium"
    else "low"
  ({ name := "OWASP-ML01-AdversarialEvasion"
     level := level
     details :=
       { baseline_accuracy := baseline_accuracy
         adversarial_accuracy := adv_accuracy
         accuracy_degradation := degradation
         triggered_subset_size := (List.range test_df.length).countP (triggerFlag rng)
         targeted_success_rate := targeted_success }
     recommendations :=
       [ "Introduce adversarial training (FGSM/PGD) in CI pipelines.",
         "Limit inference outputs to class labels or rounded confidences.",
         "Add rate limiting and anomaly detection around inference APIs." ] },
   test_df)

/-- C6: the stress tester never mutates the caller's split — noise and
trigger appends go to the deep copy, so after the call the caller's
`test_df` is exactly the input (every row, hence every cell, unchanged). -/
theorem adversarial_preserves_input (model : LabelModel) (test_df : List AdvRow)
    (baseline_accuracy epsilon : ℝ) (trigger_phrase : String) (rng? : Option Rng) :
    (run_adversarial_stress_test model test_df baseline_accuracy epsilon
      trigger_phrase rng?).2 = test_df :=
  rfl

/-- C7: the stress tester is deterministic in its explicit random source —
two runs with identical model, split, baseline accuracy, epsilon, trigger
phrase and identically-seeded random source state (identical draw streams)
produce identical `details` (hence the same adversarial_accuracy,
accuracy_degradation and targeted_success_rate). -/
theorem adversarial_deterministic (m₁ m₂ : LabelModel) (df₁ df₂ : List AdvRow)
    (b₁ b₂ e₁ e₂ : ℝ) (p₁ p₂ : String) (r₁ r₂ : Rng)
    (hm : m₁ = m₂) (hdf : df₁ = df₂) (hb : b₁ = b₂) (he : e₁ = e₂) (hp : p₁ = p₂)
    (hr : r₁ = r₂) :
    (run_adversarial_stress_test m₁ df₁ b₁ e₁ p₁ (some r₁)).1.details =
      (run_adversarial_stress_test m₂ df₂ b₂ e₂ p₂ (some r₂)).1.details := by
  subst hm hdf hb he hp hr
  rfl

/-- Witness for C7 at a concrete input. -/
theorem adversarial_deterministic_witness :
    (run_adversarial_stress_test ⟨fun _ => "yes"⟩ [⟨[5], "t", "yes", []⟩] 1 (1/2) "boo"
        (some (default_rng 7))).1.details =
      (run_adversarial_stress_test ⟨fun _ => "yes"⟩ [⟨[5], "t", "yes", []⟩] 1 (1/2) "boo"
        (some (default_rng 7))).1.details :=
  adversarial_deterministic ⟨fun _ => "yes"⟩ ⟨fun _ => "yes"⟩
    [⟨[5], "t", "yes", []⟩] [⟨[5], "t", "yes", []⟩] 1 1 (1/2) (1/2) "boo" "boo"
    (default_rng 7) (default_rng 7) rfl rfl rfl rfl rfl rfl

/-- C9 counterexample: a call that omits the random source still proceeds —
the source substitutes its own internally created generator
`np.random.default_rng(42)` and returns an ordinary `AdversarialEvasion`
RiskScore, contradicting "cannot proceed with internally-chosen
randomness". -/
theorem adversarial_none_rng_proceeds :
    (run_adversarial_stress_test ⟨fun _ => "yes"⟩ [⟨[5], "t", "yes", []⟩] 1 (1/2) "boo"
        none).1.name = "OWASP-ML01-AdversarialEvasion" ∧
    run_adversarial_stress_test ⟨fun _ => "yes"⟩ [⟨[5], "t", "yes", []⟩] 1 (1/2) "boo" none =
      run_adversarial_stress_test ⟨fun _ => "yes"⟩ [⟨[5], "t", "yes", []⟩] 1 (1/2) "boo"
        (some (default_rng 42)) :=
  ⟨rfl, rfl⟩

/-- C9 (amended): when the caller passes a random source all randomness comes
from it (C7), but when the caller omits it the component does not refuse —
it creates and uses its own seeded generator, `np.random.default_rng(42)`:
the omitted-source call behaves exactly like a call with that internal
generator. -/
theorem adversarial_omitted_rng_uses_default (model : LabelModel) (test_df : List AdvRow)
    (baseline_accuracy epsilon : ℝ) (trigger_phrase : String) :
    run_adversarial_stress_test model test_df baseline_accuracy epsilon trigger_phrase none =
      run_adversarial_stress_test model test_df baseline_accuracy epsilon trigger_phrase
        (some (default_rng 42)) :=
  rfl

lemma demo_colValues : colValues [⟨[5], "t", "yes", []⟩, ⟨[5], "u", "no", []⟩] 0 = [(5:ℝ), 5] := by
  simp [colValues]

lemma demo_std_zero : realPopStd (colValues [⟨[5], "t", "yes", []⟩, ⟨[5], "u", "no", []⟩] 0) = 0 := by
  rw [demo_colValues]
  have hmean : realMean [(5:ℝ), 5] = 5 := by
    simp [realMean]
  have hvar : realPopVariance [(5:ℝ), 5] = 0 := by
    simp [realPopVariance, hmean]
  rw [realPopStd, hvar, Real.sqrt_zero]

/-- C4 counterexample: for a constant numeric column (population std 0) and
epsilon = 1/2, the source's scale is 1/2 — the `.replace(0, 1)` step turns
the zero std into 1 before clamping — whereas the claimed formula
`max(std · epsilon, 1e-3)` gives 1/1000. -/
theorem adversarial_noise_scale_zero_std_counterexample :
    realPopStd (colValues [⟨[5], "t", "yes", []⟩, ⟨[5], "u", "no", []⟩] 0) = 0 ∧
    colScale [⟨[5], "t", "yes", []⟩, ⟨[5], "u", "no", []⟩] (1/2) 0 = 1/2 ∧
    colScale [⟨[5], "t", "yes", []⟩, ⟨[5], "u", "no", []⟩] (1/2) 0 ≠
      max (realPopStd (colValues [⟨[5], "t", "yes", []⟩, ⟨[5], "u", "no", []⟩] 0) * (1/2))
        (1/1000) := by
  refine ⟨demo_std_zero, ?_, ?_⟩
  · rw [colScale, demo_std_zero, advNoiseScale, replaceZeroStd]
    norm_num [max_def]
  · rw [colScale, demo_std_zero, advNoiseScale, replaceZeroStd]
    norm_num [max_def]

/-- C4 (amended): the per-column Gaussian noise scale is
`max(std' · epsilon, 1e-3)` where `std'` is the column's population standard
deviation on the original split **after `.replace(0, 1)`** — so a column
with non-zero std gets `max(std · epsilon, 1e-3)` as claimed, but a constant
column (std = 0) gets `max(epsilon, 1e-3)`, not 1e-3. -/
theorem adversarial_noise_scale_formula (df : List AdvRow) (eps : ℝ) (j : Nat) :
    (realPopStd (colValues df j) ≠ 0 →
      colScale df eps j = max (realPopStd (colValues df j) * eps) (1/1000)) ∧
    (realPopStd (colValues df j) = 0 →
      colScale df eps j = max eps (1/1000)) := by
  constructor
  · intro h
    rw [colScale, advNoiseScale, replaceZeroStd, if_neg h]
  · intro h
    rw [colScale, advNoiseScale, replaceZeroStd, h, if_pos rfl, one_mul]

/-- Witness for the amended C4 at a concrete input. -/
theorem adversarial_noise_scale_formula_witness :
    realPopStd (colValues [⟨[5], "t", "yes", []⟩, ⟨[5], "u", "no", []⟩] 0) = 0 ∧
    colScale [⟨[5], "t", "yes", []⟩, ⟨[5], "u", "no", []⟩] (1/2) 0 = max (1/2) (1/1000) :=
  ⟨demo_std_zero,
   (adversarial_noise_scale_formula [⟨[5], "t", "yes", []⟩, ⟨[5], "u", "no", []⟩] (1/2) 0).2
     demo_std_zero⟩
